import Mathlib

set_option maxRecDepth 100000

/-!
Shallow embedding of `src/app/lib/actions.ts` (Next.js server actions for the
invoice feature): the credential authenticator, the invoice create/update
actions with their zod validation schema, and the delete action.

Modelling conventions:
* JavaScript numbers are modelled exactly: `JSNum` is NaN, a signed infinity,
  or an exact rational.  Form-data entry values (`string | File`) are `FormVal`;
  a `FormData` object is an association list of named entries and `get` returns
  the first entry for a key, or `none` for JavaScript's `null`.
* The zod schema `FormSchema.omit({id, date})` is embedded field by field,
  following zod v3 semantics: `z.string` / `z.enum` raise an `invalid_type`
  issue (carrying the configured `invalid_type_error` message) on non-string
  input, `z.enum` raises `invalid_enum_value` with the default message on a
  string outside the enum, and `z.coerce.number` applies JavaScript `Number()`
  coercion before the `gt(0)` check.
* Database and framework effects are made explicit: an `Env` carries today's
  date string, the id the database would assign to an inserted row, and
  whether each SQL statement succeeds; the store is the list of invoice rows;
  the success-path `redirect` (a non-local control transfer in the source) is
  an `ActionResult.redirect` variant, and `revalidatePath` calls are collected
  in a list.
-/

/-- A JavaScript number: NaN, an infinity (`neg` gives the sign), or a finite
value modelled as an exact rational. -/
inductive JSNum where
  | nan
  | inf (neg : Bool)
  | fin (q : ℚ)
deriving DecidableEq, Repr

/-- The JavaScript comparison `n <= 0`: true for a nonpositive finite value
and for -Infinity, false for +Infinity and for NaN (every comparison with NaN
is false). -/
def JSNum.nonpos : JSNum → Prop
  | .nan => False
  | .inf neg => neg = true
  | .fin q => q ≤ 0

instance (n : JSNum) : Decidable n.nonpos :=
  match n with
  | .nan => isFalse fun h => h
  | .inf neg => inferInstanceAs (Decidable (neg = true))
  | .fin q => inferInstanceAs (Decidable (q ≤ 0))

/-- A non-null `FormDataEntryValue`: a string or a `File`. -/
inductive FormVal where
  | vStr (s : String)
  | vFile
deriving DecidableEq, Repr

/-- A `FormData` object: named entries in submission order. -/
abbrev FormData := List (String × FormVal)

/-- `formData.get(k)`: the first entry named `k`, or `none` for `null`. -/
def FormData.get (fd : FormData) (k : String) : Option FormVal :=
  (fd.find? (fun p => p.1 == k)).map Prod.snd

/-- Numeric value of a decimal-digit list read in base 10. -/
def digitsToNat (l : List Char) : Nat :=
  l.foldl (fun a c => a * 10 + (c.toNat - 48)) 0

/-- A nonempty all-decimal-digit list. -/
def isDigits (l : List Char) : Bool :=
  !l.isEmpty && l.all Char.isDigit

/-- Strip leading and trailing whitespace, as `Number()` does before parsing. -/
def jsTrim (l : List Char) : List Char :=
  ((l.dropWhile Char.isWhitespace).reverse.dropWhile Char.isWhitespace).reverse

/-- Exponent part of a numeric literal (after the `e`): optional sign and
digits. -/
def parseExpPart : List Char → Option ℤ
  | [] => none
  | '+' :: r => if isDigits r then some (digitsToNat r : ℤ) else none
  | '-' :: r => if isDigits r then some (-(digitsToNat r : ℤ)) else none
  | r => if isDigits r then some (digitsToNat r : ℤ) else none

/-- Mantissa of a decimal literal: digits with an optional fraction part, at
least one digit in total. -/
def parseMantissa (l : List Char) : Option ℚ :=
  let ip := l.takeWhile (· != '.')
  match l.drop ip.length with
  | [] => if isDigits ip then some (digitsToNat ip : ℚ) else none
  | '.' :: fp =>
      if ip.all Char.isDigit && fp.all Char.isDigit && (!ip.isEmpty || !fp.isEmpty) then
        some ((digitsToNat ip : ℚ) + (digitsToNat fp : ℚ) / (10 ^ fp.length : ℚ))
      else none
  | _ => none

/-- Unsigned decimal literal with an optional exponent part. -/
def parseDecimal (l : List Char) : Option ℚ :=
  let m := l.takeWhile (fun c => c != 'e' && c != 'E')
  match l.drop m.length with
  | [] => parseMantissa m
  | _ :: ex =>
      match parseMantissa m, parseExpPart ex with
      | some mant, some e =>
          some (if 0 ≤ e then mant * 10 ^ e.toNat else mant / 10 ^ (-e).toNat)
      | _, _ => none

/-- Value of a hexadecimal digit. -/
def hexDigitVal (c : Char) : Option Nat :=
  if c.isDigit then some (c.toNat - 48)
  else if 'a' ≤ c && c ≤ 'f' then some (c.toNat - 87)
  else if 'A' ≤ c && c ≤ 'F' then some (c.toNat - 55)
  else none

/-- Nonempty digit string read in the given radix. -/
def parseRadix (radix : Nat) (l : List Char) : Option Nat :=
  if l.isEmpty then none
  else l.foldl
    (fun acc c =>
      match acc, hexDigitVal c with
      | some a, some d => if d < radix then some (a * radix + d) else none
      | _, _ => none)
    (some 0)

/-- JavaScript `Number(string)` on the fragment of string numeric literals
this model covers: whitespace trimming, the empty string as `0`, signed
decimal literals with optional fraction and exponent, signed `Infinity`, and
unsigned `0x`/`0o`/`0b` radix literals; everything else is NaN. -/
def jsStrToNumber (s : String) : JSNum :=
  match jsTrim s.toList with
  | [] => .fin 0
  | '0' :: 'x' :: r | '0' :: 'X' :: r =>
      match parseRadix 16 r with | some n => .fin (n : ℚ) | none => .nan
  | '0' :: 'o' :: r | '0' :: 'O' :: r =>
      match parseRadix 8 r with | some n => .fin (n : ℚ) | none => .nan
  | '0' :: 'b' :: r | '0' :: 'B' :: r =>
      match parseRadix 2 r with | some n => .fin (n : ℚ) | none => .nan
  | t =>
      let sgn : Bool × List Char :=
        match t with
        | '+' :: r => (false, r)
        | '-' :: r => (true, r)
        | r => (false, r)
      if sgn.2 == "Infinity".toList then .inf sgn.1
      else
        match parseDecimal sgn.2 with
        | some q => .fin (if sgn.1 then -q else q)
        | none => .nan

/-- JavaScript `Number()` applied to a `FormDataEntryValue | null`:
`Number(null) = 0`, a `File` stringifies to a non-numeric string (NaN), and a
string is parsed. -/
def jsToNumber : Option FormVal → JSNum
  | none => .fin 0
  | some .vFile => .nan
  | some (.vStr s) => jsStrToNumber s

/-- Outcome of one zod field check: the parsed value or the issue messages. -/
inductive FieldCheck (α : Type) where
  | ok (val : α)
  | err (msgs : List String)
deriving DecidableEq, Repr

/-- Messages of a field check, as `flatten().fieldErrors` reports them: absent
for a field that passed. -/
def fieldMsgs {α : Type} : FieldCheck α → Option (List String)
  | .ok _ => none
  | .err m => some m

/-- The schema field `customerId: z.string({invalid_type_error: 'Please select
a customer'})` applied to a `FormDataEntryValue | null`. -/
def parseCustomerId : Option FormVal → FieldCheck String
  | some (.vStr s) => .ok s
  | _ => .err ["Please select a customer"]

/-- The schema field `amount: z.coerce.number().gt(0, {message: 'Amount must
be greater than 0'})`: `Number()` coercion, then the NaN type check (default
zod message), then the strict `> 0` check. -/
def parseAmount (v : Option FormVal) : FieldCheck JSNum :=
  match jsToNumber v with
  | .nan => .err ["Expected number, received nan"]
  | .inf neg =>
      if neg then .err ["Amount must be greater than 0"] else .ok (.inf false)
  | .fin q =>
      if 0 < q then .ok (.fin q) else .err ["Amount must be greater than 0"]

/-- Default zod message for an `invalid_enum_value` issue of this schema. -/
def statusEnumMsg (s : String) : String :=
  "Invalid enum value. Expected 'pending' | 'paid', received '" ++ s ++ "'"

/-- The schema field `status: z.enum(['pending','paid'], {invalid_type_error:
'Please select a valid status'})`: a non-string input is an `invalid_type`
issue carrying the configured message; a string outside the enum is an
`invalid_enum_value` issue carrying the default message. -/
def parseStatus : Option FormVal → FieldCheck String
  | some (.vStr s) =>
      if s = "pending" || s = "paid" then .ok s
      else .err [statusEnumMsg s]
  | _ => .err ["Please select a valid status"]

/-- The per-field error map `validatedFields.error.flatten().fieldErrors`:
a key is present exactly when that field failed. -/
structure FieldErrors where
  customerId : Option (List String)
  amount : Option (List String)
  status : Option (List String)
deriving DecidableEq, Repr

/-- The validated data of `CreateInvoice` / `UpdateInvoice` (the schema with
`id` and `date` omitted). -/
structure InvoiceFields where
  customerId : String
  amount : JSNum
  status : String
deriving DecidableEq, Repr

/-- Result of `safeParse` on the three submitted fields. -/
inductive SafeParseResult where
  | ok (fields : InvoiceFields)
  | error (e : FieldErrors)
deriving DecidableEq, Repr

/-- `CreateInvoice.safeParse({customerId: formData.get('customerId'), amount:
formData.get('amount'), status: formData.get('status')})`: all three fields
are checked and failures are aggregated per field.  `UpdateInvoice` is the
same schema. -/
def safeParseInvoice (fd : FormData) : SafeParseResult :=
  match parseCustomerId (fd.get "customerId"), parseAmount (fd.get "amount"),
      parseStatus (fd.get "status") with
  | .ok c, .ok a, .ok s => .ok ⟨c, a, s⟩
  | rc, ra, rs => .error ⟨fieldMsgs rc, fieldMsgs ra, fieldMsgs rs⟩

/-- A persisted row of the `invoices` table. -/
structure Invoice where
  id : String
  customer_id : String
  amount : JSNum
  status : String
  date : String
deriving DecidableEq, Repr

/-- The `invoices` table. -/
abbrev Store := List Invoice

/-- The ambient effects an action invocation observes: today's date string
(`new Date().toISOString().split('T')[0]`), the id the database assigns to an
inserted row, and whether each SQL statement succeeds or throws. -/
structure Env where
  today : String
  freshId : String
  insertOk : Bool
  updateOk : Bool
deriving DecidableEq, Repr

/-- Caller-observable outcome of a create/update action: the returned
validation-error payload, the returned database-error payload, or the
success-path redirect. -/
inductive ActionResult where
  | formErrors (errors : FieldErrors) (message : String)
  | dbMessage (message : String)
  | redirect (path : String)
deriving DecidableEq, Repr

/-- Full effect of one create/update invocation: result, resulting table, and
the paths passed to `revalidatePath`. -/
structure ActionOut where
  result : ActionResult
  store : Store
  revalidated : List String
deriving DecidableEq, Repr

/-- `amountInCents = amount * 100` in JavaScript arithmetic. -/
def amountTimes100 : JSNum → JSNum
  | .nan => .nan
  | .inf b => .inf b
  | .fin q => .fin (q * 100)

/-- `createInvoice`: validate, and on failure return the field errors with the
fixed message; otherwise insert `(customerId, amountInCents, status, date)`,
returning `{message: 'Database error'}` if the INSERT throws, else revalidate
and redirect to `/dashboard/invoices`. -/
def createInvoice (env : Env) (store : Store) (fd : FormData) : ActionOut :=
  match safeParseInvoice fd with
  | .error e => ⟨.formErrors e "Missing Fields. Failed to Create Invoice.", store, []⟩
  | .ok f =>
      if env.insertOk then
        ⟨.redirect "/dashboard/invoices",
         store ++ [⟨env.freshId, f.customerId, amountTimes100 f.amount, f.status, env.today⟩],
         ["/dashboard/invoices"]⟩
      else
        ⟨.dbMessage "Database error", store, []⟩

/-- Effect of the UPDATE statement on one row: the row matching the given id
gets the new customer id, amount in cents, and status; its `id` and `date`
columns and every other row are untouched. -/
def updRow (f : InvoiceFields) (id : String) (r : Invoice) : Invoice :=
  if r.id = id then
    { r with customer_id := f.customerId, amount := amountTimes100 f.amount,
             status := f.status }
  else r

/-- `updateInvoice`: validate, and on failure return the field errors with the
fixed message; otherwise run the UPDATE for the given id, returning
`{message: 'Database error: Faild to Update'}` if it throws, else revalidate
and redirect to `/dashboard/invoices`. -/
def updateInvoice (env : Env) (id : String) (store : Store) (fd : FormData) :
    ActionOut :=
  match safeParseInvoice fd with
  | .error e => ⟨.formErrors e "Missing Fields. Failed to Update Invoice.", store, []⟩
  | .ok f =>
      if env.updateOk then
        ⟨.redirect "/dashboard/invoices", store.map (updRow f id),
         ["/dashboard/invoices"]⟩
      else
        ⟨.dbMessage "Database error: Faild to Update", store, []⟩

/-- Outcome of a delete invocation: the raised error, the resulting table, and
any revalidated paths. -/
structure DeleteOut where
  threw : Option String
  store : Store
  revalidated : List String
deriving DecidableEq, Repr

/-- `deleteInvoice`: throws `Error('Faild to Delete')` on its first line; the
DELETE statement and the `revalidatePath` call after the throw are
unreachable. -/
def deleteInvoice (store : Store) (id : String) : DeleteOut :=
  ⟨some "Faild to Delete", store, []⟩

/-- Outcome of the `signIn('credentials', formData)` call: the internal
redirect signal thrown on success, an `AuthError` with its `type` tag, or any
other thrown error. -/
inductive SignInOutcome where
  | redirectSignal
  | authError (type : String)
  | otherError (name : String)
deriving DecidableEq, Repr

/-- What `authenticate` does with the call's outcome: return a message string
or re-raise what was thrown. -/
inductive AuthResult where
  | message (m : String)
  | raised (e : SignInOutcome)
deriving DecidableEq, Repr

/-- `authenticate`: an `AuthError` of type `CredentialsSignin` becomes
`'Invalid credentials.'`, any other `AuthError` becomes the default-branch
string `'Someting went wrong'`, and anything else is re-thrown. -/
def authenticate : SignInOutcome → AuthResult
  | .authError t =>
      if t = "CredentialsSignin" then .message "Invalid credentials."
      else .message "Someting went wrong"
  | e => .raised e

/-! Helper lemmas about the validation pipeline and the action bodies. -/

/-- When validation fails, `createInvoice` returns the field errors with the
fixed create message and touches nothing. -/
theorem createInvoice_of_error (env : Env) (store : Store) (fd : FormData)
    (e : FieldErrors) (h : safeParseInvoice fd = .error e) :
    createInvoice env store fd =
      ⟨.formErrors e "Missing Fields. Failed to Create Invoice.", store, []⟩ := by
  unfold createInvoice
  rw [h]

/-- When validation fails, `updateInvoice` returns the field errors with the
fixed update message and touches nothing. -/
theorem updateInvoice_of_error (env : Env) (idv : String) (store : Store)
    (fd : FormData) (e : FieldErrors) (h : safeParseInvoice fd = .error e) :
    updateInvoice env idv store fd =
      ⟨.formErrors e "Missing Fields. Failed to Update Invoice.", store, []⟩ := by
  unfold updateInvoice
  rw [h]

/-- When validation succeeds and the INSERT succeeds, `createInvoice` appends
the new row, revalidates, and redirects. -/
theorem createInvoice_of_ok (env : Env) (store : Store) (fd : FormData)
    (f : InvoiceFields) (h : safeParseInvoice fd = .ok f)
    (hdb : env.insertOk = true) :
    createInvoice env store fd =
      ⟨.redirect "/dashboard/invoices",
       store ++ [⟨env.freshId, f.customerId, amountTimes100 f.amount, f.status, env.today⟩],
       ["/dashboard/invoices"]⟩ := by
  unfold createInvoice
  rw [h]
  simp [hdb]

/-- When validation succeeds and the UPDATE succeeds, `updateInvoice` rewrites
the matching rows, revalidates, and redirects. -/
theorem updateInvoice_of_ok (env : Env) (idv : String) (store : Store)
    (fd : FormData) (f : InvoiceFields) (h : safeParseInvoice fd = .ok f)
    (hdb : env.updateOk = true) :
    updateInvoice env idv store fd =
      ⟨.redirect "/dashboard/invoices", store.map (updRow f idv),
       ["/dashboard/invoices"]⟩ := by
  unfold updateInvoice
  rw [h]
  simp [hdb]

/-- Any error result of `safeParse` carries, per field, exactly the messages
of that field's check. -/
theorem safeParseInvoice_error_elim (fd : FormData) (e : FieldErrors)
    (h : safeParseInvoice fd = .error e) :
    e = ⟨fieldMsgs (parseCustomerId (fd.get "customerId")),
         fieldMsgs (parseAmount (fd.get "amount")),
         fieldMsgs (parseStatus (fd.get "status"))⟩ := by
  unfold safeParseInvoice at h
  split at h
  · exact absurd h (by simp)
  · exact (SafeParseResult.error.inj h).symm

/-- When the status check fails, `safeParse` fails and reports the messages of
every failing field. -/
theorem safeParseInvoice_error_of_status (fd : FormData) (m : List String)
    (hs : parseStatus (fd.get "status") = .err m) :
    safeParseInvoice fd =
      .error ⟨fieldMsgs (parseCustomerId (fd.get "customerId")),
              fieldMsgs (parseAmount (fd.get "amount")), some m⟩ := by
  unfold safeParseInvoice
  cases hc : parseCustomerId (fd.get "customerId") <;>
    cases ha : parseAmount (fd.get "amount") <;>
      simp [hc, ha, hs, fieldMsgs]

/-- When the amount check fails, `safeParse` fails and reports the messages of
every failing field. -/
theorem safeParseInvoice_error_of_amount (fd : FormData) (m : List String)
    (ha : parseAmount (fd.get "amount") = .err m) :
    safeParseInvoice fd =
      .error ⟨fieldMsgs (parseCustomerId (fd.get "customerId")), some m,
              fieldMsgs (parseStatus (fd.get "status"))⟩ := by
  unfold safeParseInvoice
  cases hc : parseCustomerId (fd.get "customerId") <;>
    cases hs : parseStatus (fd.get "status") <;>
      simp [hc, ha, hs, fieldMsgs]

/-- A coerced amount that compares `<= 0` in JavaScript (a nonpositive finite
number or -Infinity) fails the `gt(0)` check with its configured message. -/
theorem parseAmount_err_of_nonpos (v : Option FormVal)
    (h : (jsToNumber v).nonpos) :
    parseAmount v = .err ["Amount must be greater than 0"] := by
  unfold parseAmount
  cases hv : jsToNumber v with
  | nan =>
      rw [hv] at h
      exact (h : False).elim
  | inf neg =>
      rw [hv] at h
      have hn : neg = true := h
      rw [hn]
      rfl
  | fin q =>
      rw [hv] at h
      have hq : q ≤ 0 := h
      simp [not_lt.mpr hq]

/-- The UPDATE row transformer is the identity on a store with no matching
row. -/
theorem map_updRow_eq_self (f : InvoiceFields) (idv : String) :
    ∀ store : Store, (∀ r ∈ store, r.id ≠ idv) → store.map (updRow f idv) = store
  | [], _ => rfl
  | r :: t, h => by
      have hr : r.id ≠ idv := h r (List.mem_cons_self r t)
      have ht := map_updRow_eq_self f idv t (fun x hx => h x (List.mem_cons_of_mem r hx))
      simp [updRow, hr, ht]

/-! Concrete inputs used to exercise the theorems. -/

/-- An environment in which both SQL statements succeed. -/
def envOk : Env := ⟨"2026-10-11", "inv_7", true, true⟩

/-- An environment in which both SQL statements throw. -/
def envDbFail : Env := ⟨"2026-10-11", "inv_7", false, false⟩

/-- The valid submission from the spec: customer c1, amount 12.34, status
pending. -/
def fdGood : FormData :=
  [("customerId", .vStr "c1"), ("amount", .vStr "12.34"), ("status", .vStr "pending")]

/-- A valid submission whose amount has a fractional number of cents. -/
def fdTiny : FormData :=
  [("customerId", .vStr "c1"), ("amount", .vStr "0.015"), ("status", .vStr "pending")]

/-- A submission whose status is a string outside the enum. -/
def fdShipped : FormData :=
  [("customerId", .vStr "c1"), ("amount", .vStr "5"), ("status", .vStr "shipped")]

/-- A submission with no status entry at all. -/
def fdNoStatus : FormData :=
  [("customerId", .vStr "c1"), ("amount", .vStr "5")]

/-- A submission with no amount entry at all. -/
def fdNoAmount : FormData :=
  [("customerId", .vStr "c1"), ("status", .vStr "pending")]

/-- A submission whose amount coerces to negative infinity. -/
def fdNegInf : FormData :=
  [("customerId", .vStr "c1"), ("amount", .vStr "-Infinity"), ("status", .vStr "pending")]

/-- The valid submission plus extra `id` and `date` form fields. -/
def fdExtra : FormData :=
  fdGood ++ [("id", .vStr "zzz"), ("date", .vStr "1999-12-31")]

/-- The validated fields of `fdGood`. -/
def fGood : InvoiceFields := ⟨"c1", .fin (617/50), "pending"⟩

/-- A stored row with id inv_1. -/
def rowOne : Invoice := ⟨"inv_1", "c0", .fin 700, "paid", "2024-01-01"⟩

/-- A stored row with id inv_2. -/
def rowTwo : Invoice := ⟨"inv_2", "c9", .fin 900, "paid", "2024-01-02"⟩

/-- A two-row invoices table. -/
def storeTwo : Store := [rowOne, rowTwo]

/-! Claim theorems. -/

/-- C4: for every identifier and store, the delete action raises the error
message Faild to Delete before any deletion is attempted; the DELETE statement
and the cache invalidation are unreachable, so the store is returned
untouched and no path is revalidated. -/
theorem deleteInvoice_always_throws (store : Store) (idv : String) :
    deleteInvoice store idv = ⟨some "Faild to Delete", store, []⟩ :=
  rfl

/-- C10: `createInvoice` reads only the customerId, amount and status entries
of the form data, so any two submissions that agree on those three entries
produce the same outcome (same validation result, same row written, same
return value or redirect), whatever other fields, including id and date, are
present. -/
theorem createInvoice_ignores_extra_fields (env : Env) (store : Store)
    (fd1 fd2 : FormData)
    (hc : fd1.get "customerId" = fd2.get "customerId")
    (ha : fd1.get "amount" = fd2.get "amount")
    (hs : fd1.get "status" = fd2.get "status") :
    createInvoice env store fd1 = createInvoice env store fd2 := by
  unfold createInvoice safeParseInvoice
  rw [hc, ha, hs]

/-- Witness for C10: the extra `id` and `date` fields of `fdExtra` do not
change the outcome of `fdGood`. -/
theorem createInvoice_ignores_extra_fields_witness :
    createInvoice envOk [] fdGood = createInvoice envOk [] fdExtra :=
  createInvoice_ignores_extra_fields envOk [] fdGood fdExtra (by decide)
    (by decide) (by decide)

/-- C6: on a validated create submission whose INSERT throws, `createInvoice`
returns exactly the message Database error, performs no redirect, and
revalidates no path; the store is unchanged. -/
theorem createInvoice_db_error (env : Env) (store : Store) (fd : FormData)
    (f : InvoiceFields) (hv : safeParseInvoice fd = .ok f)
    (hdb : env.insertOk = false) :
    createInvoice env store fd = ⟨.dbMessage "Database error", store, []⟩ := by
  unfold createInvoice
  rw [hv]
  simp [hdb]

/-- Witness for C6: the valid submission with a failing INSERT. -/
theorem createInvoice_db_error_witness :
    createInvoice envDbFail storeTwo fdGood =
      ⟨.dbMessage "Database error", storeTwo, []⟩ :=
  createInvoice_db_error envDbFail storeTwo fdGood fGood
    (by with_unfolding_all decide) rfl

/-- C9: an update whose identifier matches no stored row still follows the
success path when the fields validate and the UPDATE statement does not
throw: no row is modified, the listing path is revalidated, and the action
redirects; no constraint on the identifier is ever checked. -/
theorem updateInvoice_unknown_id_success (env : Env) (idv : String)
    (store : Store) (fd : FormData) (f : InvoiceFields)
    (hv : safeParseInvoice fd = .ok f) (hdb : env.updateOk = true)
    (hid : ∀ r ∈ store, r.id ≠ idv) :
    updateInvoice env idv store fd =
      ⟨.redirect "/dashboard/invoices", store, ["/dashboard/invoices"]⟩ := by
  rw [updateInvoice_of_ok env idv store fd f hv hdb,
    map_updRow_eq_self f idv store hid]

/-- Witness for C9: updating the identifier ghost, which matches neither
stored row, redirects and leaves the table as it was. -/
theorem updateInvoice_unknown_id_success_witness :
    updateInvoice envOk "ghost" storeTwo fdGood =
      ⟨.redirect "/dashboard/invoices", storeTwo, ["/dashboard/invoices"]⟩ :=
  updateInvoice_unknown_id_success envOk "ghost" storeTwo fdGood fGood
    (by with_unfolding_all decide) rfl (by decide)

/-- C7 counterexample: for the recognized non-credentials category
CallbackRouteError the authenticator returns the literal Someting went wrong,
not the message Something went wrong the claim states. -/
theorem authenticate_default_message_counterexample :
    authenticate (.authError "CallbackRouteError") = .message "Someting went wrong"
    ∧ authenticate (.authError "CallbackRouteError") ≠ .message "Something went wrong" := by
  decide

/-- C7 (amended): an AuthError of type CredentialsSignin maps to Invalid
credentials., any other AuthError maps to the literal Someting went wrong
(the typo the code ships), and any outcome that is not an AuthError is
re-raised unchanged. -/
theorem authenticate_error_mapping :
    (∀ t, t = "CredentialsSignin" →
      authenticate (.authError t) = .message "Invalid credentials.")
    ∧ (∀ t, t ≠ "CredentialsSignin" →
      authenticate (.authError t) = .message "Someting went wrong")
    ∧ (∀ o : SignInOutcome, (∀ t, o ≠ .authError t) → authenticate o = .raised o) := by
  refine ⟨fun t ht => ?_, fun t ht => ?_, fun o ho => ?_⟩
  · simp [authenticate, ht]
  · simp [authenticate, ht]
  · cases o with
    | redirectSignal => rfl
    | authError t => exact absurd rfl (ho t)
    | otherError n => rfl

/-- Witness for C7: the three branches at concrete outcomes, including the
re-raise of the framework's redirect signal. -/
theorem authenticate_error_mapping_witness :
    authenticate (.authError "CredentialsSignin") = .message "Invalid credentials."
    ∧ authenticate (.authError "AccessDenied") = .message "Someting went wrong"
    ∧ authenticate (.otherError "NEXT_REDIRECT") = .raised (.otherError "NEXT_REDIRECT") :=
  ⟨authenticate_error_mapping.1 "CredentialsSignin" rfl,
   authenticate_error_mapping.2.1 "AccessDenied" (by decide),
   authenticate_error_mapping.2.2 (.otherError "NEXT_REDIRECT")
     (fun t h => SignInOutcome.noConfusion h)⟩

/-- The field-error map of the empty submission: all three checks fail. -/
def eAllFail : FieldErrors :=
  ⟨some ["Please select a customer"], some ["Amount must be greater than 0"],
   some ["Please select a valid status"]⟩

/-- C5: whenever validation fails, both actions return an errors map carrying
an entry for every failing field (failures aggregate, they do not
short-circuit), together with the action's fixed message, and issue no
database statement: the store is returned unchanged and nothing is
revalidated; a missing customerId contributes the entry Please select a
customer. -/
theorem validation_failure_aggregates_no_db (env : Env) (idv : String)
    (store : Store) (fd : FormData) (e : FieldErrors)
    (h : safeParseInvoice fd = .error e) :
    createInvoice env store fd =
      ⟨.formErrors e "Missing Fields. Failed to Create Invoice.", store, []⟩
    ∧ updateInvoice env idv store fd =
      ⟨.formErrors e "Missing Fields. Failed to Update Invoice.", store, []⟩
    ∧ e.customerId = fieldMsgs (parseCustomerId (fd.get "customerId"))
    ∧ e.amount = fieldMsgs (parseAmount (fd.get "amount"))
    ∧ e.status = fieldMsgs (parseStatus (fd.get "status"))
    ∧ (fd.get "customerId" = none →
        e.customerId = some ["Please select a customer"]) := by
  have he := safeParseInvoice_error_elim fd e h
  refine ⟨createInvoice_of_error env store fd e h,
    updateInvoice_of_error env idv store fd e h, ?_, ?_, ?_, ?_⟩
  · rw [he]
  · rw [he]
  · rw [he]
  · intro hc
    rw [he, hc]
    rfl

/-- Witness for C5: the empty submission fails all three checks and both
actions return all three entries without touching the store. -/
theorem validation_failure_aggregates_no_db_witness :
    createInvoice envOk storeTwo [] =
      ⟨.formErrors eAllFail "Missing Fields. Failed to Create Invoice.", storeTwo, []⟩
    ∧ updateInvoice envOk "inv_1" storeTwo [] =
      ⟨.formErrors eAllFail "Missing Fields. Failed to Update Invoice.", storeTwo, []⟩ :=
  ⟨(validation_failure_aggregates_no_db envOk "inv_1" storeTwo [] eAllFail
      (by with_unfolding_all decide)).1,
   (validation_failure_aggregates_no_db envOk "inv_1" storeTwo [] eAllFail
      (by with_unfolding_all decide)).2.1⟩

/-- C3: whenever the amount entry coerces to a value that compares `<= 0`
under JavaScript comparison (a negative or zero numeral, the empty string or
a missing entry, both of which coerce to 0, or -Infinity), both actions
return an errors map whose amount entry is the message Amount must be
greater than 0. -/
theorem amount_nonpositive_error (env : Env) (idv : String) (store : Store)
    (fd : FormData) (h : (jsToNumber (fd.get "amount")).nonpos) :
    ∃ e : FieldErrors, e.amount = some ["Amount must be greater than 0"]
      ∧ createInvoice env store fd =
          ⟨.formErrors e "Missing Fields. Failed to Create Invoice.", store, []⟩
      ∧ updateInvoice env idv store fd =
          ⟨.formErrors e "Missing Fields. Failed to Update Invoice.", store, []⟩ := by
  have ha := parseAmount_err_of_nonpos (fd.get "amount") h
  have hsp := safeParseInvoice_error_of_amount fd _ ha
  exact ⟨_, rfl, createInvoice_of_error env store fd _ hsp,
    updateInvoice_of_error env idv store fd _ hsp⟩

/-- Witness for C3: a submission with no amount entry coerces to 0, and one
whose amount entry is the string -Infinity coerces to negative infinity;
both get the amount error in both actions. -/
theorem amount_nonpositive_error_witness :
    (∃ e : FieldErrors, e.amount = some ["Amount must be greater than 0"]
      ∧ createInvoice envOk storeTwo fdNoAmount =
          ⟨.formErrors e "Missing Fields. Failed to Create Invoice.", storeTwo, []⟩
      ∧ updateInvoice envOk "inv_1" storeTwo fdNoAmount =
          ⟨.formErrors e "Missing Fields. Failed to Update Invoice.", storeTwo, []⟩)
    ∧ (∃ e : FieldErrors, e.amount = some ["Amount must be greater than 0"]
      ∧ createInvoice envOk storeTwo fdNegInf =
          ⟨.formErrors e "Missing Fields. Failed to Create Invoice.", storeTwo, []⟩
      ∧ updateInvoice envOk "inv_1" storeTwo fdNegInf =
          ⟨.formErrors e "Missing Fields. Failed to Update Invoice.", storeTwo, []⟩) :=
  ⟨amount_nonpositive_error envOk "inv_1" storeTwo fdNoAmount (by decide),
   amount_nonpositive_error envOk "inv_1" storeTwo fdNegInf (by decide)⟩

/-- C2 counterexample: for the string status shipped, which is not in
{pending, paid}, the status entry carries the default zod enum message and
not the message Please select a valid status the claim states. -/
theorem status_enum_string_counterexample :
    (createInvoice envOk [] fdShipped).result =
      .formErrors
        ⟨none, none,
         some ["Invalid enum value. Expected 'pending' | 'paid', received 'shipped'"]⟩
        "Missing Fields. Failed to Create Invoice."
    ∧ "Please select a valid status" ∉
        ["Invalid enum value. Expected 'pending' | 'paid', received 'shipped'"] := by
  with_unfolding_all decide

/-- C2 (amended): when the status entry is missing or is not a string, both
actions return a status entry with the configured message Please select a
valid status; when the status entry is a string outside {pending, paid}, the
status entry instead carries the default enum message for that string. -/
theorem status_error_messages (env : Env) (idv : String) (store : Store)
    (fd : FormData) :
    ((∀ s, fd.get "status" ≠ some (.vStr s)) →
      ∃ e : FieldErrors, e.status = some ["Please select a valid status"]
        ∧ createInvoice env store fd =
            ⟨.formErrors e "Missing Fields. Failed to Create Invoice.", store, []⟩
        ∧ updateInvoice env idv store fd =
            ⟨.formErrors e "Missing Fields. Failed to Update Invoice.", store, []⟩)
    ∧ (∀ s, fd.get "status" = some (.vStr s) → s ≠ "pending" → s ≠ "paid" →
      ∃ e : FieldErrors, e.status = some [statusEnumMsg s]
        ∧ createInvoice env store fd =
            ⟨.formErrors e "Missing Fields. Failed to Create Invoice.", store, []⟩
        ∧ updateInvoice env idv store fd =
            ⟨.formErrors e "Missing Fields. Failed to Update Invoice.", store, []⟩) := by
  constructor
  · intro hns
    have hs : parseStatus (fd.get "status") = .err ["Please select a valid status"] := by
      cases hv : fd.get "status" with
      | none => rfl
      | some v =>
          cases v with
          | vStr s => exact absurd hv (hns s)
          | vFile => rfl
    have hsp := safeParseInvoice_error_of_status fd _ hs
    exact ⟨_, rfl, createInvoice_of_error env store fd _ hsp,
      updateInvoice_of_error env idv store fd _ hsp⟩
  · intro s hv hp hpd
    have hs : parseStatus (fd.get "status") = .err [statusEnumMsg s] := by
      rw [hv]
      simp [parseStatus, hp, hpd]
    have hsp := safeParseInvoice_error_of_status fd _ hs
    exact ⟨_, rfl, createInvoice_of_error env store fd _ hsp,
      updateInvoice_of_error env idv store fd _ hsp⟩

/-- Witness for C2: a submission with no status entry gets the configured
invalid-type message in both actions. -/
theorem status_error_messages_witness :
    ∃ e : FieldErrors, e.status = some ["Please select a valid status"]
      ∧ createInvoice envOk [] fdNoStatus =
          ⟨.formErrors e "Missing Fields. Failed to Create Invoice.", [], []⟩
      ∧ updateInvoice envOk "inv_1" [] fdNoStatus =
          ⟨.formErrors e "Missing Fields. Failed to Update Invoice.", [], []⟩ :=
  (status_error_messages envOk "inv_1" [] fdNoStatus).1
    (fun s h => by
      have hn : FormData.get fdNoStatus "status" = none := by decide
      rw [hn] at h
      exact Option.noConfusion h)

/-- C8: a successful validated update rewrites exactly the rows matching the
given identifier, changing only their customer id, amount-in-cents and status
columns: the row transformer preserves `id` and `date` and is the identity on
every non-matching row, and the action redirects. -/
theorem updateInvoice_updates_only_matching_columns (env : Env) (idv : String)
    (store : Store) (fd : FormData) (f : InvoiceFields)
    (hv : safeParseInvoice fd = .ok f) (hdb : env.updateOk = true) :
    (updateInvoice env idv store fd).store = store.map (updRow f idv)
    ∧ (∀ r : Invoice, (updRow f idv r).id = r.id ∧ (updRow f idv r).date = r.date
        ∧ (r.id ≠ idv → updRow f idv r = r))
    ∧ (updateInvoice env idv store fd).result = .redirect "/dashboard/invoices" := by
  refine ⟨?_, fun r => ?_, ?_⟩
  · rw [updateInvoice_of_ok env idv store fd f hv hdb]
  · unfold updRow
    by_cases hr : r.id = idv <;> simp [hr]
  · rw [updateInvoice_of_ok env idv store fd f hv hdb]

/-- Witness for C8: updating inv_1 in the two-row table rewrites the three
columns of inv_1, keeps its date, and leaves inv_2 untouched. -/
theorem updateInvoice_updates_only_matching_columns_witness :
    (updateInvoice envOk "inv_1" storeTwo fdGood).store =
      storeTwo.map (updRow fGood "inv_1")
    ∧ storeTwo.map (updRow fGood "inv_1") =
      [⟨"inv_1", "c1", .fin 1234, "pending", "2024-01-01"⟩, rowTwo] :=
  ⟨(updateInvoice_updates_only_matching_columns envOk "inv_1" storeTwo fdGood
      fGood (by with_unfolding_all decide) rfl).1,
   by with_unfolding_all decide⟩

/-- C1 counterexample: the valid amount 0.015 multiplied by 100 is 1.5, and
the row is inserted with amount 1.5, not the truncated integer 1: no
truncation happens in the code. -/
theorem amount_truncation_counterexample :
    safeParseInvoice fdTiny = .ok ⟨"c1", .fin (3/200), "pending"⟩
    ∧ (createInvoice envOk [] fdTiny).store =
        [⟨"inv_7", "c1", .fin (3/2), "pending", "2026-10-11"⟩]
    ∧ JSNum.fin ((3:ℚ)/2) ≠ .fin ((Rat.floor ((3:ℚ)/2) : ℤ) : ℚ) := by
  with_unfolding_all decide

/-- C1 (amended): on every validated submission with finite amount q, both
actions write the amount column as exactly q times 100, with no truncation
applied; in particular 12.34 is stored as exactly 1234 (see the witness). -/
theorem invoice_amount_stored_is_times100 (env : Env) (idv : String)
    (store : Store) (fd : FormData) (c : String) (q : ℚ) (s : String)
    (hv : safeParseInvoice fd = .ok ⟨c, .fin q, s⟩)
    (hins : env.insertOk = true) (hupd : env.updateOk = true) :
    (createInvoice env store fd).store =
      store ++ [⟨env.freshId, c, .fin (q * 100), s, env.today⟩]
    ∧ (updateInvoice env idv store fd).store =
        store.map (fun r => if r.id = idv then
          { r with customer_id := c, amount := JSNum.fin (q * 100), status := s }
          else r) := by
  constructor
  · rw [createInvoice_of_ok env store fd _ hv hins]
    rfl
  · rw [updateInvoice_of_ok env idv store fd _ hv hupd]
    rfl

/-- Witness for C1: the spec's valid input with amount 12.34 inserts a row
whose amount is (617/50)·100, which is exactly 1234. -/
theorem invoice_amount_stored_is_times100_witness :
    (createInvoice envOk [] fdGood).store =
      [] ++ [⟨"inv_7", "c1", .fin ((617/50 : ℚ) * 100), "pending", "2026-10-11"⟩]
    ∧ JSNum.fin ((617/50 : ℚ) * 100) = .fin 1234 :=
  ⟨(invoice_amount_stored_is_times100 envOk "inv_1" [] fdGood "c1" (617/50)
      "pending" (by with_unfolding_all decide) rfl rfl).1,
   by with_unfolding_all decide⟩
